import Mathlib

/-!
Verification development for the graphile-postgis spatial codec.

The TypeScript sources under src/ are shallowly embedded below:

* JavaScript runtime values (the `any`-typed GeoJSON documents the library
  manipulates) are modelled by the inductive `JsonV`; JS `typeof`,
  truthiness, property access (including the TypeError thrown when reading
  a property of `null`/`undefined`) are modelled by `typeofStr`, `truthy`,
  `objGet`/`jsMember`.
* `src/validation.ts` becomes `validateGeoJSONStructure`,
  `validateCoordinates` and `validateGeoJSON` (the last one returns
  `Except String _` because the JS original can raise a TypeError).
* `src/codec.ts` (the current revision, the one with the
  `json_build_object` read expression) becomes `fromPg` / `toPg`.
* `src/mutationUtils.ts` becomes `sqlValueWithPostGISCodec` over a small
  SQL-fragment syntax.
* `src/PostgisRegisterTypesPlugin.ts` getGeometryType and the
  `src/inflection.ts` gisType inflector become `getGeometryType` /
  `gisType` with the memoization cache passed as explicit state.
* the Polygon field plugin resolvers (exterior / interiors) become
  `exteriorResolve` / `interiorsResolve`.
-/

/-- A JavaScript runtime value, as far as the library observes it:
null, undefined, booleans, numbers, strings, arrays and plain objects
(an object is a key ordered association list; `objGet` takes the first
binding, which is how our inputs - literals without duplicate keys -
behave). Numbers carry an `Int`; none of the verified code computes with
coordinate values, it only tests whether a leaf is a number. -/
inductive JsonV where
  | null
  | undefined
  | boolV (b : Bool)
  | num (n : Int)
  | str (s : String)
  | arr (elems : List JsonV)
  | obj (fields : List (String × JsonV))
deriving Repr

namespace JsonV

/-- The JS `typeof` operator (note `typeof null` is "object"). -/
def typeofStr : JsonV → String
  | .null => "object"
  | .undefined => "undefined"
  | .boolV _ => "boolean"
  | .num _ => "number"
  | .str _ => "string"
  | .arr _ => "object"
  | .obj _ => "object"

/-- JS truthiness: `null`, `undefined`, `false`, `0` and the empty string
are falsy, everything else (including `[]` and `\x7b\x7d`) is truthy. -/
def truthy : JsonV → Bool
  | .null => false
  | .undefined => false
  | .boolV b => b
  | .num n => n ≠ 0
  | .str s => s ≠ ""
  | .arr _ => true
  | .obj _ => true

/-- Is this value a JS number. -/
def isNum : JsonV → Bool
  | .num _ => true
  | _ => false

/-- First binding of a key in an object field list (JS literals in this
code base never repeat keys, so first = last). -/
def fieldsGet : List (String × JsonV) → String → JsonV
  | [], _ => .undefined
  | (k, v) :: rest, key => if k = key then v else fieldsGet rest key

/-- Property read that never throws: reading a property of a primitive
yields `undefined` in JS; callers must guard the null/undefined case
themselves (see `jsMember`). -/
def objGet : JsonV → String → JsonV
  | .obj fs, key => fieldsGet fs key
  | _, _ => .undefined

/-- Property read with JS semantics: reading a property of `null` or
`undefined` throws a TypeError. -/
def jsMember (v : JsonV) (key : String) : Except String JsonV :=
  match v with
  | .null => .error ("TypeError: Cannot read properties of null (reading \x27" ++ key ++ "\x27)")
  | .undefined => .error ("TypeError: Cannot read properties of undefined (reading \x27" ++ key ++ "\x27)")
  | v => .ok (objGet v key)

/-- String conversion used by JS template literals for the values that
actually reach one in this code base. -/
def toDisplay : JsonV → String
  | .null => "null"
  | .undefined => "undefined"
  | .boolV true => "true"
  | .boolV false => "false"
  | .num n => toString n
  | .str s => s
  | .arr _ => ""
  | .obj _ => "[object Object]"

/-- JS strict equality of a value against a string literal: true exactly
when the value is that string (`v === "s"`). -/
def strEq (v : JsonV) (s : String) : Bool :=
  match v with
  | .str x => x = s
  | _ => false

/-- Is this value `undefined` (used for `!== undefined` tests). -/
def isUndef : JsonV → Bool
  | .undefined => true
  | _ => false

end JsonV

/-- A GeoJSON validation error: `\x7bfield, message, value?\x7d`, the
structure produced by src/validation.ts. -/
structure VError where
  field : String
  message : String
  value : Option JsonV := none
deriving Repr

/-- The list of recognised `type` strings from validateGeoJSONStructure. -/
def validTypes : List String :=
  ["Point", "LineString", "Polygon", "MultiPoint", "MultiLineString",
   "MultiPolygon", "GeometryCollection", "Feature", "FeatureCollection"]

/-- Embedding of `validateGeoJSONStructure` (src/validation.ts): null and
undefined are valid; non-objects and arrays get a single root error; a
falsy `type` property short-circuits; a `type` outside `validTypes` is
reported. -/
def validateGeoJSONStructure (value : JsonV) : List VError :=
  match value with
  | .null => []
  | .undefined => []
  | .obj fs =>
      let tv := JsonV.fieldsGet fs "type"
      if !tv.truthy then
        [{ field := "type", message := "GeoJSON must have a \x27type\x27 property",
           value := some value }]
      else
        let known := match tv with
          | .str s => validTypes.contains s
          | _ => false
        if known then []
        else
          [{ field := "type",
             message := "Invalid GeoJSON type: " ++ tv.toDisplay ++
               ". Must be one of: " ++ String.intercalate ", " validTypes,
             value := some tv }]
  | _ => [{ field := "root", message := "GeoJSON must be an object", value := some value }]

mutual

/-- One step of validateCoordinates inner walk
(`validateCoordinateNumbers`): element `c` at index `i` under `path` - an
array recurses with the extended path, a number is fine, anything else is
one error whose field spells the index chain. -/
def walkCoordVal (path : String) (i : Nat) (c : JsonV) : List VError :=
  match c with
  | .arr a => walkCoordList (path ++ "[" ++ toString i ++ "]") 0 a
  | .num _ => []
  | c =>
      [{ field := "coordinates" ++ path ++ "[" ++ toString i ++ "]",
         message := "Coordinate values must be numbers", value := some c }]

/-- The walk over the elements of one array level, indices counting up. -/
def walkCoordList (path : String) (i : Nat) : List JsonV → List VError
  | [] => []
  | c :: rest => walkCoordVal path i c ++ walkCoordList path (i + 1) rest

end

/-- Embedding of `validateCoordinates` (src/validation.ts): a non-array is
one error; an empty array is one error; then every non-numeric leaf of
the nested array is reported with its index chain. (The unused second
parameter `_expectedDimensions` of the source is dropped.) -/
def validateCoordinates (coordinates : JsonV) : List VError :=
  match coordinates with
  | .arr l =>
      (if l.length = 0 then
        [{ field := "coordinates", message := "Coordinates array cannot be empty",
           value := some coordinates }]
       else []) ++ walkCoordList "" 0 l
  | _ =>
      [{ field := "coordinates", message := "Coordinates must be an array",
         value := some coordinates }]

/-- The per-family minimum checks at the end of `validateGeoJSON`
(src/validation.ts lines 181-230): Point needs an array of at least 2
numbers, LineString an array of at least 2 arrays of length at least 2,
Polygon an array of at least 1 array of length at least 4; each failed
branch is a single error on field "coordinates". -/
def perFamilyChecks (tv coords : JsonV) : List VError :=
  if tv.strEq "Point" then
    match coords with
    | .arr l =>
        if l.length < 2 then
          [{ field := "coordinates",
             message := "Point coordinates must be an array with at least 2 numbers [longitude, latitude]",
             value := some coords }]
        else if l.any (fun c => !c.isNum) then
          [{ field := "coordinates",
             message := "Point coordinates must contain only numbers",
             value := some coords }]
        else []
    | _ =>
        [{ field := "coordinates",
           message := "Point coordinates must be an array with at least 2 numbers [longitude, latitude]",
           value := some coords }]
  else if tv.strEq "LineString" then
    match coords with
    | .arr l =>
        if l.length < 2 then
          [{ field := "coordinates",
             message := "LineString coordinates must be an array with at least 2 coordinate pairs",
             value := some coords }]
        else if !(l.all fun c => match c with | .arr p => 2 ≤ p.length | _ => false) then
          [{ field := "coordinates",
             message := "LineString coordinates must be an array of coordinate pairs [longitude, latitude]",
             value := some coords }]
        else []
    | _ =>
        [{ field := "coordinates",
           message := "LineString coordinates must be an array with at least 2 coordinate pairs",
           value := some coords }]
  else if tv.strEq "Polygon" then
    match coords with
    | .arr l =>
        if l.length < 1 then
          [{ field := "coordinates",
             message := "Polygon coordinates must be an array with at least one ring",
             value := some coords }]
        else if !(l.all fun r => match r with | .arr p => 4 ≤ p.length | _ => false) then
          [{ field := "coordinates",
             message := "Polygon coordinates must be an array of rings, each with at least 4 coordinate pairs",
             value := some coords }]
        else []
    | _ =>
        [{ field := "coordinates",
           message := "Polygon coordinates must be an array with at least one ring",
           value := some coords }]
  else []

/-- The type-mismatch error validateGeoJSON emits when `expectedType` is
given but the document carries a different `type`. -/
def mismatchError (expectedType : String) (tv : JsonV) : VError :=
  { field := "type",
    message := "Expected GeoJSON type \x27" ++ expectedType ++ "\x27, but got \x27" ++
      tv.toDisplay ++ "\x27. Please provide GeoJSON with type \x27" ++ expectedType ++ "\x27.",
    value := some tv }

/-- The validation performed by `validateGeoJSON` once the input is known
to be a plain object (so no property access can throw): optional
expected-type check, generic coordinate validation (skipped for
Feature/FeatureCollection), then per-family minimums, the last only when
no error was recorded so far. -/
def validateGeoJSONObj (fs : List (String × JsonV)) (expectedType : Option String) :
    List VError :=
  let tv := JsonV.fieldsGet fs "type"
  let coords := JsonV.fieldsGet fs "coordinates"
  let mismatchErrs :=
    match expectedType with
    | some t => if t ≠ "" ∧ tv.strEq t = false then [mismatchError t tv] else []
    | none => []
  let coordErrs :=
    if coords.isUndef = false ∧ tv.strEq "Feature" = false ∧ tv.strEq "FeatureCollection" = false then
      validateCoordinates coords
    else []
  let errs := mismatchErrs ++ coordErrs
  let familyErrs :=
    if coords.isUndef = false ∧ errs.isEmpty = true then perFamilyChecks tv coords else []
  errs ++ familyErrs

/-- Embedding of `validateGeoJSON` (src/validation.ts): structural
validation short-circuits; otherwise the type-mismatch, generic
coordinate, and per-family checks of `validateGeoJSONObj` run. The result
is an `Except` because the JS original dereferences `value.type` /
`value.coordinates` after the structural check, which throws a TypeError
when the (structurally valid) input is null or undefined. -/
def validateGeoJSON (value : JsonV) (expectedType : Option String := none) :
    Except String (List VError) :=
  let errors := validateGeoJSONStructure value
  if errors.length > 0 then .ok errors
  else
    match value with
    | .obj fs => .ok (validateGeoJSONObj fs expectedType)
    | v =>
        -- only null/undefined reach here with empty structural errors;
        -- the first property read on them throws
        match expectedType with
        | some t => if t ≠ "" then v.jsMember "type" *> .ok [] else v.jsMember "coordinates" *> .ok []
        | none => v.jsMember "coordinates" *> .ok []

/-- The decoded column constraint `\x7bsubtype, hasZ, hasM, srid\x7d`
produced by the type-modifier decoder (`getGISTypeDetails`); the codec
consumes it opaquely through these four fields. Subtype 0 is the generic
(unconstrained) family. -/
structure GISTypeDetails where
  subtype : Nat
  hasZ : Bool
  hasM : Bool
  srid : Int
deriving Repr

/-- The `expectedTypes` lookup table inside toPg: subtype number to
GeoJSON family name, undefined outside 1..7. -/
def expectedTypes : Nat → Option String
  | 1 => some "Point"
  | 2 => some "LineString"
  | 3 => some "Polygon"
  | 4 => some "MultiPoint"
  | 5 => some "MultiLineString"
  | 6 => some "MultiPolygon"
  | 7 => some "GeometryCollection"
  | _ => none

/-- Minimal string escaping for the JSON serializer below. -/
def escapeJsonString (s : String) : String :=
  s.foldl (fun acc c =>
    if c = Char.ofNat 34 then acc ++ "\\" ++ String.singleton (Char.ofNat 34)
    else if c = '\\' then acc ++ "\\\\"
    else acc ++ String.singleton c) ""

mutual

/-- Models the host `JSON.stringify` on the values this code base feeds
it (platform primitive, not repository code): `undefined` object fields
are dropped, `undefined` array members render as null. -/
def jsonStringify : JsonV → String
  | .null => "null"
  | .undefined => "null"
  | .boolV true => "true"
  | .boolV false => "false"
  | .num n => toString n
  | .str s => String.singleton (Char.ofNat 34) ++ escapeJsonString s ++ String.singleton (Char.ofNat 34)
  | .arr l => "[" ++ stringifyArr l ++ "]"
  | .obj fs => "\x7b" ++ stringifyObj fs ++ "\x7d"

/-- Array members of the serializer, comma separated. -/
def stringifyArr : List JsonV → String
  | [] => ""
  | [x] => jsonStringify x
  | x :: rest => jsonStringify x ++ "," ++ stringifyArr rest

/-- Object members of the serializer, `undefined` values dropped. -/
def stringifyObj : List (String × JsonV) → String
  | [] => ""
  | (k, v) :: rest =>
      match v with
      | .undefined => stringifyObj rest
      | v =>
          let entry := String.singleton (Char.ofNat 34) ++ escapeJsonString k ++
            String.singleton (Char.ofNat 34) ++ ":" ++ jsonStringify v
          match rest.filter (fun kv => ¬ kv.2.isUndef) with
          | [] => entry
          | _ => entry ++ "," ++ stringifyObj rest

end

/-- Embedding of the codec write path `toPg` (src/codec.ts lines
319-365): null/undefined is a contract violation; a non-empty validation
report aborts with the concatenated field/message pairs; a constrained
non-generic subtype requires the input `type` to equal the family name;
on success the input is serialized to JSON text. -/
def toPg (typeDetails : Option GISTypeDetails) (value : JsonV) : Except String String :=
  match value with
  | .null => .error "toPg should not be called with null/undefined"
  | .undefined => .error "toPg should not be called with null/undefined"
  | value =>
    match validateGeoJSON value none with
    | .error e => .error e
    | .ok validationErrors =>
      if validationErrors.isEmpty = false then
        .error ("Invalid GeoJSON: " ++
          String.intercalate "; " (validationErrors.map (fun err => err.field ++ ": " ++ err.message)) ++
          ". Please provide valid GeoJSON according to RFC 7946 specification.")
      else
        let typeCheck : Except String Unit :=
          match typeDetails with
          | some td =>
            if td.subtype ≠ 0 then
              match expectedTypes td.subtype with
              | some expected =>
                  if (value.objGet "type").strEq expected = false then
                    .error ("GeoJSON type mismatch: column expects \x27" ++ expected ++
                      "\x27, but received \x27" ++ (value.objGet "type").toDisplay ++
                      "\x27. Please provide GeoJSON with type \x27" ++ expected ++ "\x27.")
                  else .ok ()
              | none => .ok ()
            else .ok ()
          | none => .ok ()
        match typeCheck with
        | .error e => .error e
        | .ok _ => .ok (jsonStringify value)

/-- JSON whitespace skipper for the parser below. -/
def dropWs : List Char → List Char
  | c :: cs => if c = ' ' ∨ c = '\n' ∨ c = '\t' ∨ c = '\r' then dropWs cs else c :: cs
  | [] => []

/-- Longest digit prefix of the input, with the rest. -/
def spanDigits : List Char → List Char × List Char
  | c :: cs =>
      if c.isDigit then
        let (ds, r) := spanDigits cs
        (c :: ds, r)
      else ([], c :: cs)
  | [] => ([], [])

/-- Reads a JSON string body up to the closing quote; escape sequences
are consumed (a backslash keeps the following character; `\u` keeps the
four hex digits verbatim, which is enough for this development since no
verified property inspects escaped text). -/
def readStrBody (acc : List Char) : List Char → Option (String × List Char)
  | c :: cs =>
      if c = Char.ofNat 34 then some (String.mk acc.reverse, cs)
      else if c = '\\' then
        match cs with
        | e :: cs2 => readStrBody (e :: acc) cs2
        | [] => none
      else readStrBody (c :: acc) cs
  | [] => none

/-- Reads a JSON number; the value is kept as the integer part only
(no verified property computes with parsed numerics). -/
def readNumber (cs : List Char) : Option (Int × List Char) :=
  let (neg, cs1) := match cs with
    | '-' :: r => (true, r)
    | _ => (false, cs)
  let (ds, cs2) := spanDigits cs1
  if ds.isEmpty then none
  else
    let intPart : Int := (ds.foldl (fun a c => a * 10 + (c.toNat - 48)) 0 : Nat)
    let cs3 := match cs2 with
      | '.' :: r =>
          let (fs, r2) := spanDigits r
          if fs.isEmpty then '.' :: r else r2
      | _ => cs2
    let cs4 := match cs3 with
      | 'e' :: r | 'E' :: r =>
          let r1 := match r with
            | '+' :: r2 => r2
            | '-' :: r2 => r2
            | _ => r
          let (es, r3) := spanDigits r1
          if es.isEmpty then cs3 else r3
      | _ => cs3
    some (if neg then -intPart else intPart, cs4)

mutual

/-- One JSON value, fuel bounded recursive descent. -/
def readVal (fuel : Nat) (cs : List Char) : Option (JsonV × List Char) :=
  match fuel with
  | 0 => none
  | fuel + 1 =>
    match dropWs cs with
    | 'n' :: 'u' :: 'l' :: 'l' :: r => some (.null, r)
    | 't' :: 'r' :: 'u' :: 'e' :: r => some (.boolV true, r)
    | 'f' :: 'a' :: 'l' :: 's' :: 'e' :: r => some (.boolV false, r)
    | '[' :: r =>
        (match dropWs r with
         | ']' :: r2 => some (.arr [], r2)
         | r2 =>
            match readElems fuel r2 with
            | some (es, r3) => some (.arr es, r3)
            | none => none)
    | '\x7b' :: r =>
        (match dropWs r with
         | '\x7d' :: r2 => some (.obj [], r2)
         | r2 =>
            match readMembers fuel r2 with
            | some (ms, r3) => some (.obj ms, r3)
            | none => none)
    | c :: r =>
        if c = Char.ofNat 34 then
          match readStrBody [] r with
          | some (s, r2) => some (.str s, r2)
          | none => none
        else if c = '-' ∨ c.isDigit then
          match readNumber (c :: r) with
          | some (n, r2) => some (.num n, r2)
          | none => none
        else none
    | [] => none

/-- Comma separated values up to the closing bracket. -/
def readElems (fuel : Nat) (cs : List Char) : Option (List JsonV × List Char) :=
  match fuel with
  | 0 => none
  | fuel + 1 =>
    match readVal fuel cs with
    | none => none
    | some (v, r) =>
      match dropWs r with
      | ',' :: r2 =>
          (match readElems fuel r2 with
           | some (vs, r3) => some (v :: vs, r3)
           | none => none)
      | ']' :: r2 => some ([v], r2)
      | _ => none

/-- Comma separated key/value members up to the closing brace. -/
def readMembers (fuel : Nat) (cs : List Char) :
    Option (List (String × JsonV) × List Char) :=
  match fuel with
  | 0 => none
  | fuel + 1 =>
    match dropWs cs with
    | c :: r =>
      if c = Char.ofNat 34 then
        match readStrBody [] r with
        | none => none
        | some (key, r1) =>
          match dropWs r1 with
          | ':' :: r2 =>
            (match readVal fuel r2 with
             | none => none
             | some (v, r3) =>
               match dropWs r3 with
               | ',' :: r4 =>
                  (match readMembers fuel r4 with
                   | some (ms, r5) => some ((key, v) :: ms, r5)
                   | none => none)
               | '\x7d' :: r4 => some ([(key, v)], r4)
               | _ => none)
          | _ => none
      else none
    | [] => none

end

/-- Models the host `JSON.parse` primitive (platform code, not part of
this repository): `none` is a parse failure, i.e. the case where the JS
original raises a SyntaxError. -/
def jsonParse (s : String) : Option JsonV :=
  match readVal (s.length + 2) s.data with
  | some (v, rest) => if dropWs rest = [] then some v else none
  | none => none

/-- Is this value `null` or `undefined` (the `??` operator tests this). -/
def JsonV.isNullish : JsonV → Bool
  | .null => true
  | .undefined => true
  | _ => false

/-- Is this value exactly `null` (strict `=== null`). -/
def JsonV.isNullV : JsonV → Bool
  | .null => true
  | _ => false

/-- The JS `in` operator on a parsed JSON value: key present on an
object, false on everything else reaching it here. -/
def JsonV.hasKey : JsonV → String → Bool
  | .obj fs, key => fs.any (fun kv => kv.1 = key)
  | _, _ => false

/-- The raw payload the storage driver hands the codec read path:
`string | null` by type, with `undefined` also checked for by the code. -/
inductive RawPayload where
  | nullP
  | undefinedP
  | strP (s : String)
deriving Repr

/-- Embedding of the codec read path `fromPg` (src/codec.ts lines
263-314): null/undefined/empty payload is a null result; a payload that
the host JSON.parse rejects makes the catch block rethrow a decode
error (as does the payload "null", whose property read inside the try
block raises a caught TypeError); a parsed document without a truthy
`geojson` member is a null result; otherwise the result carries
`geojson`, `srid` (0 when nullish) and any `x`/`y` members, plus `z`
when present and non-null. The oversized-geometry console warning has no
effect on the returned value and is elided. -/
def fromPg (value : RawPayload) : Except String JsonV :=
  match value with
  | .nullP => .ok .null
  | .undefinedP => .ok .null
  | .strP s =>
    if s = "" then .ok .null
    else
      match jsonParse s with
      | none => .error "Failed to parse geometry data from PostGIS: Unexpected token in JSON"
      | some .null =>
          .error ("Failed to parse geometry data from PostGIS: " ++
            "Cannot read properties of null (reading \x27geojson\x27)")
      | some parsed =>
        let geojson := parsed.objGet "geojson"
        let srid := parsed.objGet "srid"
        if !geojson.truthy then .ok .null
        else
          let base := [("geojson", geojson),
                       ("srid", if srid.isNullish then JsonV.num 0 else srid)]
          let withX := if parsed.hasKey "x" then base ++ [("x", parsed.objGet "x")] else base
          let withY := if parsed.hasKey "y" then withX ++ [("y", parsed.objGet "y")] else withX
          let withZ :=
            if parsed.hasKey "z" ∧ (parsed.objGet "z").isNullV = false then
              withY ++ [("z", parsed.objGet "z")]
            else withY
          .ok (.obj withZ)

/-- The `srid` a Polygon field resolver attaches to a sub-result:
`parent.srid || 0` (JS or, so any falsy srid becomes the number 0). -/
def resolvedSrid (parent : JsonV) : JsonV :=
  let srid := parent.objGet "srid"
  if srid.truthy then srid else .num 0

/-- Wraps one Polygon ring as the LineString-shaped sub-result the
Polygon field resolvers return, carrying the parent srid. -/
def wrapRing (parent : JsonV) (ring : JsonV) : JsonV :=
  .obj [("geojson", .obj [("type", .str "LineString"), ("coordinates", ring)]),
        ("srid", resolvedSrid parent)]

/-- Is `geojson` a well-shaped Polygon for the resolver guards: typeof
object, `type === "Polygon"`, coordinates an array (the length bound is
checked separately by each resolver). -/
def polygonRings (geojson : JsonV) : Option (List JsonV) :=
  if geojson.typeofStr = "object" ∧ (geojson.objGet "type").strEq "Polygon" then
    match geojson.objGet "coordinates" with
    | .arr rings => some rings
    | _ => none
  else none

/-- Embedding of the `exterior` field resolver of
PostgisPolygonFieldsPlugin (src/codec.ts lines 480-505 of the bundled
file): null when the parent or its geojson is falsy or the geojson is
not a Polygon with a non-empty coordinates array; otherwise the first
ring wrapped as a LineString sub-result with the parent srid. -/
def exteriorResolve (parent : JsonV) : JsonV :=
  if !parent.truthy ∨ !(parent.objGet "geojson").truthy then .null
  else
    let geojson := parent.objGet "geojson"
    match polygonRings geojson with
    | some (r0 :: _) => wrapRing parent r0
    | _ => .null

/-- Embedding of the `interiors` field resolver of
PostgisPolygonFieldsPlugin (src/codec.ts lines 532-557 of the bundled
file): null when the parent or its geojson is falsy; every ring after
the first wrapped as a LineString sub-result when the geojson is a
Polygon with more than one ring; the empty array otherwise. -/
def interiorsResolve (parent : JsonV) : JsonV :=
  if !parent.truthy ∨ !(parent.objGet "geojson").truthy then .null
  else
    let geojson := parent.objGet "geojson"
    match polygonRings geojson with
    | some rings =>
        if 1 < rings.length then .arr ((rings.drop 1).map (wrapRing parent))
        else .arr []
    | _ => .arr []

/-- One piece of a pg-sql2 template: literal SQL text, an identifier, or
an embedded parameter value (`sql.value`). -/
inductive SqlPiece where
  | raw (s : String)
  | ident (parts : List String)
  | value (v : JsonV)
deriving Repr

/-- The model of a codec as `sqlValueWithPostGISCodec` observes one:
its name, its `sqlType` identifier parts, the extension marker fields,
and its `toPg` function. For a codec built by `createPostGISCodec` the
`toPgFun` is `toPg typeDetails` above. -/
structure CodecModel where
  name : String
  sqlTypeParts : List String
  isPostGIS : Bool
  typeName : Option String
  typeDetails : Option GISTypeDetails
  toPgFun : JsonV → Except String String

/-- Builds the codec model that `createPostGISCodec typeName typeDetails`
produces, as far as the mutation path observes it. -/
def postgisCodec (typeName : String) (typeDetails : Option GISTypeDetails) : CodecModel :=
  { name := typeName
    sqlTypeParts := typeName.splitOn "."
    isPostGIS := true
    typeName := some typeName
    typeDetails := typeDetails
    toPgFun := toPg typeDetails }

/-- Embedding of `sqlValueWithPostGISCodec` (src/mutationUtils.ts lines
21-68): nullish values become a NULL cast; non-PostGIS codecs fall back
to a plain parameter cast; geography wraps the serialized GeoJSON in
ST_GeomFromGeoJSON and casts to geography; geometry with a non-zero
column srid wraps it additionally in ST_SetSRID; geometry without srid
constraint uses the parse result unwrapped. An exception from the
codec toPg propagates. -/
def sqlValueWithPostGISCodec (value : JsonV) (codec : CodecModel) :
    Except String (List SqlPiece) :=
  if value.isNullish then
    .ok [.raw "NULL::", .ident codec.sqlTypeParts]
  else if !codec.isPostGIS then
    (codec.toPgFun value).map fun encodedValue =>
      [.value (.str encodedValue), .raw "::", .ident codec.sqlTypeParts]
  else
    (codec.toPgFun value).map fun jsonString =>
      let columnSRID : Option Int := codec.typeDetails.map (fun td => td.srid)
      let typeName :=
        match codec.typeName with
        | some t => if t ≠ "" then t else codec.name
        | none => codec.name
      if typeName = "geography" then
        [.raw "ST_GeomFromGeoJSON(", .value (.str jsonString), .raw "::text)::geography"]
      else
        match columnSRID with
        | some srid =>
            if srid ≠ 0 then
              [.raw "ST_SetSRID(ST_GeomFromGeoJSON(", .value (.str jsonString),
               .raw "::text), ", .value (.num srid), .raw ")::geometry"]
            else
              [.raw "ST_GeomFromGeoJSON(", .value (.str jsonString), .raw "::text)::geometry"]
        | none =>
            [.raw "ST_GeomFromGeoJSON(", .value (.str jsonString), .raw "::text)::geometry"]

/-- Capitalizes the first character of a string. -/
def capitalizeStr (s : String) : String :=
  match s.data with
  | [] => ""
  | c :: rest => String.mk (c.toUpper :: rest)

/-- Models the host framework upperCamelCase inflection helper (external
to this repository) on the kebab-case inputs this code feeds it: each
dash separated part is capitalized and the parts are concatenated. -/
def upperCamelCase (s : String) : String :=
  String.join ((s.splitOn "-").map capitalizeStr)

/-- Modelled from the spec: `SUBTYPE_STRING_BY_SUBTYPE` lives in
src/constants.ts, which is absent from the sources (only re-exported);
the spec fixes the family names (Unconstrained=0 generic geometry,
Point=1 .. GeometryCollection=7) and the inflector comment shows the
kebab-case form ("geometry-collection"). -/
def subtypeStringBySubtype : Nat → String
  | 0 => "geometry"
  | 1 => "point"
  | 2 => "line-string"
  | 3 => "polygon"
  | 4 => "multi-point"
  | 5 => "multi-line-string"
  | 6 => "multi-polygon"
  | 7 => "geometry-collection"
  | _ => ""

/-- Embedding of the `gisType` inflector (src/inflection.ts, current
revision): the base type name is recovered from prefixed codec names;
subtype 0 resolves to the bare Geometry/Geography name; otherwise a
Geometry/Geography prefix (skipped when the subtype string already
starts with "geometry"), the subtype string, and z/m suffixes are
joined and upper camel cased. -/
def gisType (codecName : String) (subtype : Nat) (hasZ hasM : Bool) : String :=
  let baseTypeName :=
    if codecName.startsWith "geography_" then "geography"
    else if codecName.startsWith "geometry_" then "geometry"
    else codecName
  if subtype = 0 then
    if baseTypeName = "geography" then "Geography" else "Geometry"
  else
    let subtypeString := subtypeStringBySubtype subtype
    let prefixParts :=
      if baseTypeName = "geography" then ["geography"]
      else if ¬ subtypeString.startsWith "geometry" then ["geometry"]
      else []
    let parts := prefixParts ++ [subtypeString] ++
      (if hasZ then ["z"] else []) ++ (if hasM then ["m"] else [])
    upperCamelCase (String.intercalate "-" parts)

/-- The mutable state of the type-resolution registry during one schema
build: the `typeNames` memoization map (typeKey to GraphQL type name)
and, for the record, the names passed to registerObjectType; the
registration side effects on the external build object do not influence
the returned identifier. -/
structure RegistryState where
  typeNames : List (String × String)
  registeredTypes : List String
deriving Repr

/-- Fresh registry state at the start of the init hook. -/
def RegistryState.empty : RegistryState := ⟨[], []⟩

/-- First binding for a key (JS object property lookup; re-insertions
prepend, shadowing as assignment would). -/
def lookupAssoc : List (String × String) → String → Option String
  | [], _ => none
  | (k, v) :: rest, key => if k = key then some v else lookupAssoc rest key

/-- JS renders booleans in template literals as true/false. -/
def boolKey (b : Bool) : String := if b then "true" else "false"

/-- The memoization key of getGeometryType: codec name, subtype and both
dimension flags. -/
def typeKeyOf (codecName : String) (subtype : Nat) (hasZ hasM : Bool) : String :=
  codecName ++ "-" ++ toString subtype ++ "-" ++ boolKey hasZ ++ "-" ++ boolKey hasM

/-- Embedding of `getGeometryType` (src/PostgisRegisterTypesPlugin.ts
lines 181-295): the type name is computed by the gisType inflector; a
truthy cached entry for the 4-tuple key is returned as is; otherwise the
type is registered and the name is cached under the key. -/
def getGeometryType (st : RegistryState) (codecName : String) (subtype : Nat)
    (hasZ hasM : Bool) : String × RegistryState :=
  let typeName := gisType codecName subtype hasZ hasM
  let typeKey := typeKeyOf codecName subtype hasZ hasM
  let register : String × RegistryState :=
    (typeName, ⟨(typeKey, typeName) :: st.typeNames, typeName :: st.registeredTypes⟩)
  match lookupAssoc st.typeNames typeKey with
  | some cached => if cached ≠ "" then (cached, st) else register
  | none => register

/-- Is `pat` a contiguous substring of `s` (used to state what an error
message does or does not name). -/
def containsChars (pat : List Char) : List Char → Bool
  | [] => pat.isEmpty
  | c :: rest => pat.isPrefixOf (c :: rest) || containsChars pat rest

/-- String-level wrapper for `containsChars`. -/
def strContainsSub (s pat : String) : Bool :=
  containsChars pat.data s.data

/-- The structural minimum validateGeoJSON enforces for Point
coordinates: length at least 2, every element numeric. -/
def pointMinOK (l : List JsonV) : Bool :=
  2 ≤ l.length && l.all JsonV.isNum

/-- The structural minimum for LineString coordinates: at least 2
elements, each an array of length at least 2. -/
def lineStringMinOK (l : List JsonV) : Bool :=
  2 ≤ l.length && l.all fun c => match c with | .arr p => 2 ≤ p.length | _ => false

/-- The structural minimum for Polygon coordinates: at least 1 ring,
each an array of length at least 4. -/
def polygonMinOK (l : List JsonV) : Bool :=
  1 ≤ l.length && l.all fun r => match r with | .arr p => 4 ≤ p.length | _ => false

/-- The seven geometry family names (excluding Feature and
FeatureCollection). -/
def geometryFamilyNames : List String :=
  ["Point", "LineString", "Polygon", "MultiPoint", "MultiLineString",
   "MultiPolygon", "GeometryCollection"]

/-! ## Theorems -/

/-- On a plain object that passes structural validation, validateGeoJSON
reduces to the pure object-level validation (no TypeError is possible). -/
theorem validateGeoJSON_obj_eq (fs : List (String × JsonV)) (t : Option String)
    (h : validateGeoJSONStructure (.obj fs) = []) :
    validateGeoJSON (.obj fs) t = .ok (validateGeoJSONObj fs t) := by
  simp [validateGeoJSON, h]

mutual

/-- Every error one walk step produces has a field that starts with
"coordinates". -/
theorem walkCoordVal_field (path : String) (i : Nat) (c : JsonV) :
    ∀ e ∈ walkCoordVal path i c, ∃ rest, e.field = "coordinates" ++ rest :=
  match c with
  | .arr a => fun e he => by
      rw [walkCoordVal] at he
      exact walkCoordList_field _ 0 a e he
  | .num _ => fun e he => by simp [walkCoordVal] at he
  | .null => fun e he => by
      simp only [walkCoordVal, List.mem_singleton] at he
      exact ⟨path ++ "[" ++ toString i ++ "]", by rw [he]; simp [String.append_assoc]⟩
  | .undefined => fun e he => by
      simp only [walkCoordVal, List.mem_singleton] at he
      exact ⟨path ++ "[" ++ toString i ++ "]", by rw [he]; simp [String.append_assoc]⟩
  | .boolV b => fun e he => by
      simp only [walkCoordVal, List.mem_singleton] at he
      exact ⟨path ++ "[" ++ toString i ++ "]", by rw [he]; simp [String.append_assoc]⟩
  | .str s => fun e he => by
      simp only [walkCoordVal, List.mem_singleton] at he
      exact ⟨path ++ "[" ++ toString i ++ "]", by rw [he]; simp [String.append_assoc]⟩
  | .obj fs => fun e he => by
      simp only [walkCoordVal, List.mem_singleton] at he
      exact ⟨path ++ "[" ++ toString i ++ "]", by rw [he]; simp [String.append_assoc]⟩

/-- Every error the recursive coordinate walk produces has a field that
starts with "coordinates". -/
theorem walkCoordList_field (path : String) (i : Nat) (l : List JsonV) :
    ∀ e ∈ walkCoordList path i l, ∃ rest, e.field = "coordinates" ++ rest :=
  match l with
  | [] => fun e he => by simp [walkCoordList] at he
  | c :: cs => fun e he => by
      rw [walkCoordList, List.mem_append] at he
      rcases he with hv | ht
      · exact walkCoordVal_field path i c e hv
      · exact walkCoordList_field path (i + 1) cs e ht

end

/-- Every error validateCoordinates produces has a field that starts
with "coordinates". -/
theorem validateCoordinates_field (c : JsonV) :
    ∀ e ∈ validateCoordinates c, ∃ rest, e.field = "coordinates" ++ rest := by
  intro e he
  cases c with
  | arr l =>
      rw [validateCoordinates, List.mem_append] at he
      rcases he with hc | hw
      · refine ⟨"", ?_⟩
        rcases Decidable.em (l.length = 0) with h0 | h0 <;> simp [h0] at hc
        rw [hc]; rfl
      · exact walkCoordList_field "" 0 l e hw
  | null => exact ⟨"", by simp [validateCoordinates] at he; rw [he]; rfl⟩
  | undefined => exact ⟨"", by simp [validateCoordinates] at he; rw [he]; rfl⟩
  | boolV b => exact ⟨"", by simp [validateCoordinates] at he; rw [he]; rfl⟩
  | num n => exact ⟨"", by simp [validateCoordinates] at he; rw [he]; rfl⟩
  | str s => exact ⟨"", by simp [validateCoordinates] at he; rw [he]; rfl⟩
  | obj fs => exact ⟨"", by simp [validateCoordinates] at he; rw [he]; rfl⟩

/-- Every error the per-family minimum checks produce sits on the field
"coordinates". -/
theorem perFamilyChecks_field (tv coords : JsonV) :
    ∀ e ∈ perFamilyChecks tv coords, e.field = "coordinates" := by
  intro e he
  unfold perFamilyChecks at he
  split_ifs at he <;>
    (try cases coords) <;>
    simp_all <;>
    (try split_ifs at he) <;>
    simp_all

/-- C5: when structural validation fails (non-object root, missing
`type`, or unknown `type`), validateGeoJSON returns exactly the
structural errors - coordinate validation is skipped entirely, so no
coordinate-level error can co-occur with a structural one. -/
theorem claim_structural_errors_short_circuit (v : JsonV) (t : Option String)
    (h : validateGeoJSONStructure v ≠ []) :
    validateGeoJSON v t = .ok (validateGeoJSONStructure v) := by
  have hpos : 0 < (validateGeoJSONStructure v).length := List.length_pos.mpr h
  simp [validateGeoJSON, hpos]

/-- Witness for C5 at the concrete non-object input "nope". -/
theorem claim_structural_errors_short_circuit_witness :
    validateGeoJSONStructure (JsonV.str "nope") ≠ [] ∧
    validateGeoJSON (JsonV.str "nope") (some "Point") =
      .ok (validateGeoJSONStructure (JsonV.str "nope")) :=
  ⟨by simp [validateGeoJSONStructure],
   claim_structural_errors_short_circuit (JsonV.str "nope") (some "Point")
     (by simp [validateGeoJSONStructure])⟩

/-- C4 (code bug): the validation engine is specified never to throw,
and validateGeoJSONStructure indeed accepts null/undefined, but
validateGeoJSON then dereferences `value.coordinates` (or `value.type`
when an expected type is supplied) on that null/undefined input, so the
JS original raises a TypeError exactly there; the embedding returns the
thrown error. -/
theorem claim_validateGeoJSON_null_throws :
    validateGeoJSON JsonV.null none =
      .error "TypeError: Cannot read properties of null (reading \x27coordinates\x27)" ∧
    validateGeoJSON JsonV.undefined (some "Point") =
      .error "TypeError: Cannot read properties of undefined (reading \x27type\x27)" ∧
    validateGeoJSONStructure JsonV.null = [] ∧
    validateGeoJSONStructure JsonV.undefined = [] :=
  ⟨rfl, rfl, rfl, rfl⟩

/-- C3: the codec read path maps null, undefined and empty payloads to
a null result without failing, and fails (rather than silently
returning null) on every non-empty payload the host JSON parser
rejects. -/
theorem claim_fromPg_null_and_decode_failure :
    fromPg RawPayload.nullP = .ok JsonV.null ∧
    fromPg RawPayload.undefinedP = .ok JsonV.null ∧
    fromPg (RawPayload.strP "") = .ok JsonV.null ∧
    ∀ s : String, s ≠ "" → jsonParse s = none →
      fromPg (RawPayload.strP s) =
        .error "Failed to parse geometry data from PostGIS: Unexpected token in JSON" := by
  refine ⟨rfl, rfl, rfl, ?_⟩
  intro s hs hp
  simp [fromPg, hs, hp]

/-- Witness for C3 on the concrete unparseable payload "not json". -/
theorem claim_fromPg_null_and_decode_failure_witness :
    ("not json" ≠ "" ∧ jsonParse "not json" = none) ∧
    fromPg (RawPayload.strP "not json") =
      .error "Failed to parse geometry data from PostGIS: Unexpected token in JSON" :=
  ⟨⟨by decide, by rfl⟩,
   claim_fromPg_null_and_decode_failure.2.2.2 "not json" (by decide) (by rfl)⟩

/-- Resolving the same tuple twice returns the identical identifier,
whatever the starting registry state. -/
theorem getGeometryType_idem (st : RegistryState) (c : String) (s : Nat) (z m : Bool) :
    (getGeometryType (getGeometryType st c s z m).2 c s z m).1 =
      (getGeometryType st c s z m).1 := by
  unfold getGeometryType
  cases hl : lookupAssoc st.typeNames (typeKeyOf c s z m) with
  | none => simp [hl, lookupAssoc]; split_ifs <;> rfl
  | some cached =>
      by_cases hc : cached = "" <;> simp [hl, hc, lookupAssoc]
      split_ifs <;> rfl

/-- C9: the type-resolution registry is memoized by the (codec name,
family, hasZ, hasM) tuple: calling it twice with the same tuple returns
the identical identifier both times, in particular for ("geometry",
Point, false, false) starting from a fresh registry. -/
theorem claim_getGeometryType_memoized :
    (∀ (st : RegistryState) (c : String) (s : Nat) (z m : Bool),
      (getGeometryType (getGeometryType st c s z m).2 c s z m).1 =
        (getGeometryType st c s z m).1) ∧
    (getGeometryType (getGeometryType RegistryState.empty "geometry" 1 false false).2
        "geometry" 1 false false).1 =
      (getGeometryType RegistryState.empty "geometry" 1 false false).1 :=
  ⟨getGeometryType_idem,
   getGeometryType_idem RegistryState.empty "geometry" 1 false false⟩

/-- A geometry family name is known, non-empty, and distinct from
Feature and FeatureCollection. -/
theorem geometryFamilyNames_props (name : String) (h : name ∈ geometryFamilyNames) :
    name ∈ validTypes ∧ name ≠ "" ∧
    name ≠ "Feature" ∧ name ≠ "FeatureCollection" := by
  fin_cases h <;> refine ⟨by decide, by decide, by decide, by decide⟩

/-- C10: a document whose `type` is one of the seven geometry families
but which has no `coordinates` member at all validates cleanly - both
the generic walk and the per-family minimums only run when coordinates
are present. -/
theorem claim_absent_coordinates_not_reported (fs : List (String × JsonV)) (name : String)
    (hname : name ∈ geometryFamilyNames)
    (hty : JsonV.fieldsGet fs "type" = .str name)
    (hco : JsonV.fieldsGet fs "coordinates" = .undefined) :
    validateGeoJSON (.obj fs) none = .ok [] := by
  obtain ⟨hmem, hne, _, _⟩ := geometryFamilyNames_props name hname
  have hstruct : validateGeoJSONStructure (.obj fs) = [] := by
    simp [validateGeoJSONStructure, hty, JsonV.truthy, hne, hmem]
  rw [validateGeoJSON_obj_eq _ _ hstruct]
  simp [validateGeoJSONObj, hco, JsonV.isUndef]

/-- Witness for C10 at the bare document with type Point and nothing
else. -/
theorem claim_absent_coordinates_not_reported_witness :
    ("Point" ∈ geometryFamilyNames ∧
     JsonV.fieldsGet [("type", JsonV.str "Point")] "type" = .str "Point" ∧
     JsonV.fieldsGet [("type", JsonV.str "Point")] "coordinates" = .undefined) ∧
    validateGeoJSON (.obj [("type", JsonV.str "Point")]) none = .ok [] :=
  ⟨⟨by decide, by rfl, by rfl⟩,
   claim_absent_coordinates_not_reported [("type", JsonV.str "Point")] "Point"
     (by decide) rfl rfl⟩

/-- C6: when the input passes structural validation but its `type`
differs from the supplied expected type, validateGeoJSON emits the
type-mismatch error and still runs generic coordinate validation, so
coordinate errors co-occur with the mismatch error in the one returned
list. -/
theorem claim_type_mismatch_continues_validation (fs : List (String × JsonV)) (t : String)
    (ht : t ≠ "")
    (hstruct : validateGeoJSONStructure (.obj fs) = [])
    (hmism : (JsonV.fieldsGet fs "type").strEq t = false)
    (hco : (JsonV.fieldsGet fs "coordinates").isUndef = false)
    (hnf : (JsonV.fieldsGet fs "type").strEq "Feature" = false)
    (hnfc : (JsonV.fieldsGet fs "type").strEq "FeatureCollection" = false) :
    validateGeoJSON (.obj fs) (some t) =
      .ok (mismatchError t (JsonV.fieldsGet fs "type") ::
           validateCoordinates (JsonV.fieldsGet fs "coordinates")) := by
  rw [validateGeoJSON_obj_eq _ _ hstruct]
  simp [validateGeoJSONObj, ht, hmism, hco, hnf, hnfc]

/-- Witness for C6: a Point document with a non-numeric coordinate,
validated against expected type LineString, returns the mismatch error
together with the coordinate error. -/
theorem claim_type_mismatch_continues_validation_witness :
    validateGeoJSON (.obj [("type", JsonV.str "Point"), ("coordinates", JsonV.arr [JsonV.str "a"])])
        (some "LineString") =
      .ok (mismatchError "LineString" (JsonV.str "Point") ::
           validateCoordinates (JsonV.arr [JsonV.str "a"])) ∧
    validateCoordinates (JsonV.arr [JsonV.str "a"]) ≠ [] :=
  ⟨claim_type_mismatch_continues_validation
      [("type", JsonV.str "Point"), ("coordinates", JsonV.arr [JsonV.str "a"])]
      "LineString" (by decide) rfl rfl rfl rfl rfl,
   by simp [validateCoordinates, walkCoordList, walkCoordVal]⟩

/-- C2 counterexample: when the parent row value or its geojson member
is absent, the interiors resolver returns null, not the empty list the
claim promises. -/
theorem claim_interiors_absent_counterexample :
    interiorsResolve JsonV.null = JsonV.null ∧
    interiorsResolve (JsonV.obj [("srid", JsonV.num 4326)]) = JsonV.null ∧
    JsonV.null ≠ JsonV.arr [] :=
  ⟨rfl, rfl, fun h => JsonV.noConfusion h⟩


/-- A Point coordinates array below the minimum makes the per-family
check emit an error. -/
theorem perFamilyChecks_fires_point (l : List JsonV) (hbad : pointMinOK l = false) :
    perFamilyChecks (.str "Point") (.arr l) ≠ [] := by
  by_cases hlen : l.length < 2
  · simp [perFamilyChecks, JsonV.strEq, hlen]
  · have h2 : 2 ≤ l.length := by omega
    simp [pointMinOK, h2] at hbad
    simp [perFamilyChecks, JsonV.strEq, hlen, hbad]

/-- A LineString coordinates array below the minimum makes the
per-family check emit an error. -/
theorem perFamilyChecks_fires_lineString (l : List JsonV)
    (hbad : lineStringMinOK l = false) :
    perFamilyChecks (.str "LineString") (.arr l) ≠ [] := by
  by_cases hlen : l.length < 2
  · simp [perFamilyChecks, JsonV.strEq, hlen]
  · have h2 : 2 ≤ l.length := by omega
    simp [lineStringMinOK, h2] at hbad
    simp [perFamilyChecks, JsonV.strEq, hlen, hbad]

/-- A Polygon coordinates array below the minimum makes the per-family
check emit an error. -/
theorem perFamilyChecks_fires_polygon (l : List JsonV)
    (hbad : polygonMinOK l = false) :
    perFamilyChecks (.str "Polygon") (.arr l) ≠ [] := by
  by_cases hlen : l.length < 1
  · simp [perFamilyChecks, JsonV.strEq, hlen]
  · have h1 : 1 ≤ l.length := by omega
    simp [polygonMinOK, h1] at hbad
    simp [perFamilyChecks, JsonV.strEq, hlen, hbad]

/-- With no expected type, a present coordinates member and a
non-Feature type, the object-level validation is the generic coordinate
errors followed by the per-family errors (the latter only when the
former are empty). -/
theorem validateGeoJSONObj_none_eq (fs : List (String × JsonV))
    (hnf : (JsonV.fieldsGet fs "type").strEq "Feature" = false)
    (hnfc : (JsonV.fieldsGet fs "type").strEq "FeatureCollection" = false)
    (hco : (JsonV.fieldsGet fs "coordinates").isUndef = false) :
    validateGeoJSONObj fs none =
      validateCoordinates (JsonV.fieldsGet fs "coordinates") ++
      (if (validateCoordinates (JsonV.fieldsGet fs "coordinates")).isEmpty = true
       then perFamilyChecks (JsonV.fieldsGet fs "type") (JsonV.fieldsGet fs "coordinates")
       else []) := by
  simp only [validateGeoJSONObj]
  rw [if_pos ⟨hco, hnf, hnfc⟩]
  simp only [List.nil_append]
  by_cases hP : (validateCoordinates (JsonV.fieldsGet fs "coordinates")).isEmpty = true
  · rw [if_pos ⟨hco, hP⟩, if_pos hP]
  · rw [if_neg (fun hc => hP hc.2), if_neg hP]

/-- C7: for a structurally valid document with an array coordinates
member, any violation of the per-family structural minimums (Point:
length at least 2 all numeric; LineString: at least 2 pairs of length
at least 2; Polygon: at least 1 ring of length at least 4) yields a
non-empty validation result containing an error whose field references
coordinates. -/
theorem claim_per_family_minimums (fs : List (String × JsonV)) (l : List JsonV)
    (hstruct : validateGeoJSONStructure (.obj fs) = [])
    (hco : JsonV.fieldsGet fs "coordinates" = .arr l)
    (hviol :
      (JsonV.fieldsGet fs "type" = .str "Point" ∧ pointMinOK l = false) ∨
      (JsonV.fieldsGet fs "type" = .str "LineString" ∧ lineStringMinOK l = false) ∨
      (JsonV.fieldsGet fs "type" = .str "Polygon" ∧ polygonMinOK l = false)) :
    ∃ es, validateGeoJSON (.obj fs) none = .ok es ∧ es ≠ [] ∧
      ∃ e ∈ es, ∃ rest, e.field = "coordinates" ++ rest := by
  rw [validateGeoJSON_obj_eq _ _ hstruct]
  refine ⟨validateGeoJSONObj fs none, rfl, ?_⟩
  have hty : JsonV.fieldsGet fs "type" = .str "Point" ∨
      JsonV.fieldsGet fs "type" = .str "LineString" ∨
      JsonV.fieldsGet fs "type" = .str "Polygon" := by
    rcases hviol with ⟨h, _⟩ | ⟨h, _⟩ | ⟨h, _⟩
    · exact Or.inl h
    · exact Or.inr (Or.inl h)
    · exact Or.inr (Or.inr h)
  have hnf : (JsonV.fieldsGet fs "type").strEq "Feature" = false := by
    rcases hty with h | h | h <;> simp [h, JsonV.strEq]
  have hnfc : (JsonV.fieldsGet fs "type").strEq "FeatureCollection" = false := by
    rcases hty with h | h | h <;> simp [h, JsonV.strEq]
  have hcu : (JsonV.fieldsGet fs "coordinates").isUndef = false := by
    rw [hco]; rfl
  rw [validateGeoJSONObj_none_eq fs hnf hnfc hcu, hco]
  by_cases hce : (validateCoordinates (JsonV.arr l)).isEmpty = true
  · -- generic validation found nothing: the per-family check fires
    have hfire : perFamilyChecks (JsonV.fieldsGet fs "type") (.arr l) ≠ [] := by
      rcases hviol with ⟨h, hbad⟩ | ⟨h, hbad⟩ | ⟨h, hbad⟩ <;> rw [h]
      · exact perFamilyChecks_fires_point l hbad
      · exact perFamilyChecks_fires_lineString l hbad
      · exact perFamilyChecks_fires_polygon l hbad
    have hcemp : validateCoordinates (JsonV.arr l) = [] := by
      simpa [List.isEmpty_iff] using hce
    rcases List.exists_mem_of_ne_nil _ hfire with ⟨e, he⟩
    refine ⟨by simp [hcemp, hce, hfire], e, ?_, "", ?_⟩
    · simp [hcemp, hce, he]
    · rw [perFamilyChecks_field _ _ e he]; rfl
  · -- the generic walk already produced a coordinates error
    have hne : validateCoordinates (JsonV.arr l) ≠ [] := by
      simpa [List.isEmpty_iff] using hce
    rcases List.exists_mem_of_ne_nil _ hne with ⟨e, he⟩
    refine ⟨by simp [hce, hne], e, ?_, ?_⟩
    · simp [hce, he]
    · exact validateCoordinates_field _ e he

/-- Witness for C7 at a Point document missing its second coordinate. -/
theorem claim_per_family_minimums_witness :
    (validateGeoJSONStructure
        (.obj [("type", JsonV.str "Point"), ("coordinates", JsonV.arr [JsonV.num 1])]) = [] ∧
     pointMinOK [JsonV.num 1] = false) ∧
    ∃ es, validateGeoJSON
        (.obj [("type", JsonV.str "Point"), ("coordinates", JsonV.arr [JsonV.num 1])]) none =
        .ok es ∧
      es ≠ [] ∧ ∃ e ∈ es, ∃ rest, e.field = "coordinates" ++ rest :=
  ⟨⟨rfl, rfl⟩,
   claim_per_family_minimums [("type", JsonV.str "Point"), ("coordinates", JsonV.arr [JsonV.num 1])]
     [JsonV.num 1] rfl rfl (Or.inl ⟨rfl, rfl⟩)⟩

/-- validateGeoJSON never raises on a plain object input. -/
theorem validateGeoJSON_obj_isOk (fs : List (String × JsonV)) (t : Option String) :
    ∃ es, validateGeoJSON (.obj fs) t = .ok es := by
  by_cases h : (validateGeoJSONStructure (.obj fs)).length > 0
  · exact ⟨validateGeoJSONStructure (.obj fs), by simp [validateGeoJSON, h]⟩
  · have h0 : validateGeoJSONStructure (.obj fs) = [] := by
      cases hh : validateGeoJSONStructure (.obj fs) with
      | nil => rfl
      | cons a l => rw [hh] at h; simp at h
    exact ⟨_, validateGeoJSON_obj_eq fs t h0⟩

/-- C1 counterexample: against a Point constrained column, the
mismatched input with type LineString and empty coordinates is rejected
through the validation branch, and the thrown message does not contain
the expected family name "Point" (nor, incidentally, the received
type), contradicting the claim that every mismatched input produces a
message naming both. -/
theorem claim_toPg_mismatch_message_counterexample :
    toPg (some ⟨1, false, false, 4326⟩)
        (.obj [("type", JsonV.str "LineString"), ("coordinates", JsonV.arr [])]) =
      .error ("Invalid GeoJSON: coordinates: Coordinates array cannot be empty. " ++
        "Please provide valid GeoJSON according to RFC 7946 specification.") ∧
    expectedTypes 1 = some "Point" ∧
    strContainsSub ("Invalid GeoJSON: coordinates: Coordinates array cannot be empty. " ++
        "Please provide valid GeoJSON according to RFC 7946 specification.") "Point" = false :=
  ⟨rfl, rfl, rfl⟩

/-- C1 amended: for a constrained non-generic family, toPg throws on
every input whose `type` differs from the family name; the thrown
message names both the expected and received type exactly when the
input passes GeoJSON validation (otherwise the validation report is
thrown instead); unconstrained shapes (no decoded details, or family 0)
perform no type-match check and accept any valid document. -/
theorem claim_toPg_constrained_type_check (td : GISTypeDetails) (expected : String)
    (fs : List (String × JsonV)) (s : String)
    (hexp : expectedTypes td.subtype = some expected)
    (hty : JsonV.fieldsGet fs "type" = .str s)
    (hne : s ≠ expected) :
    (∃ msg, toPg (some td) (.obj fs) = .error msg) ∧
    (validateGeoJSON (.obj fs) none = .ok [] →
      toPg (some td) (.obj fs) =
        .error ("GeoJSON type mismatch: column expects \x27" ++ expected ++
          "\x27, but received \x27" ++ s ++
          "\x27. Please provide GeoJSON with type \x27" ++ expected ++ "\x27.")) ∧
    (∀ gs : List (String × JsonV), validateGeoJSON (.obj gs) none = .ok [] →
      toPg none (.obj gs) = .ok (jsonStringify (.obj gs)) ∧
      ∀ (hZ hM : Bool) (sr : Int),
        toPg (some ⟨0, hZ, hM, sr⟩) (.obj gs) = .ok (jsonStringify (.obj gs))) := by
  have h0 : td.subtype ≠ 0 := by
    intro h; rw [h] at hexp; exact Option.noConfusion hexp
  have hmismatch : validateGeoJSON (.obj fs) none = .ok [] →
      toPg (some td) (.obj fs) =
        .error ("GeoJSON type mismatch: column expects \x27" ++ expected ++
          "\x27, but received \x27" ++ s ++
          "\x27. Please provide GeoJSON with type \x27" ++ expected ++ "\x27.") := by
    intro hvalid
    simp only [toPg]
    rw [hvalid]
    simp [h0, hexp, JsonV.objGet, hty, JsonV.strEq, hne, JsonV.toDisplay]
  refine ⟨?_, hmismatch, ?_⟩
  · obtain ⟨es, hes⟩ := validateGeoJSON_obj_isOk fs none
    by_cases he : es = []
    · subst he
      exact ⟨_, hmismatch hes⟩
    · refine ⟨"Invalid GeoJSON: " ++
          String.intercalate "; " (es.map (fun err => err.field ++ ": " ++ err.message)) ++
          ". Please provide valid GeoJSON according to RFC 7946 specification.", ?_⟩
      simp only [toPg]
      rw [hes]
      simp [List.isEmpty_iff, he]
  · intro gs hvalid
    constructor
    · simp only [toPg]
      rw [hvalid]
      simp
    · intro hZ hM sr
      simp only [toPg]
      rw [hvalid]
      simp

/-- Witness for C1 at a valid LineString document written to a
Point constrained column. -/
theorem claim_toPg_constrained_type_check_witness :
    (expectedTypes 1 = some "Point" ∧ "LineString" ≠ "Point" ∧
     validateGeoJSON
        (.obj [("type", JsonV.str "LineString"),
          ("coordinates", JsonV.arr [JsonV.arr [JsonV.num 1, JsonV.num 2],
            JsonV.arr [JsonV.num 3, JsonV.num 4]])]) none = .ok []) ∧
    toPg (some ⟨1, false, false, 4326⟩)
        (.obj [("type", JsonV.str "LineString"),
          ("coordinates", JsonV.arr [JsonV.arr [JsonV.num 1, JsonV.num 2],
            JsonV.arr [JsonV.num 3, JsonV.num 4]])]) =
      .error ("GeoJSON type mismatch: column expects \x27" ++ "Point" ++
        "\x27, but received \x27" ++ "LineString" ++
        "\x27. Please provide GeoJSON with type \x27" ++ "Point" ++ "\x27.") :=
  ⟨⟨rfl, by decide, rfl⟩,
   (claim_toPg_constrained_type_check ⟨1, false, false, 4326⟩ "Point"
      [("type", JsonV.str "LineString"),
       ("coordinates", JsonV.arr [JsonV.arr [JsonV.num 1, JsonV.num 2],
         JsonV.arr [JsonV.num 3, JsonV.num 4]])]
      "LineString" rfl rfl (by decide)).2.1 rfl⟩

/-- C2 amended: for a decoded Polygon output value, `exterior` is the
first ring wrapped as a LineString sub-result carrying the parent srid
and `interiors` is the list of the remaining rings so wrapped (the
empty list when there are no holes, or when a present geojson is not a
well-shaped Polygon); when the parent or its geojson member is absent,
`interiors` is null rather than an empty list. -/
theorem claim_polygon_ring_fields (fs gfs : List (String × JsonV)) (r0 : JsonV)
    (rest : List JsonV)
    (hg : JsonV.fieldsGet fs "geojson" = .obj gfs)
    (hty : JsonV.fieldsGet gfs "type" = .str "Polygon")
    (hco : JsonV.fieldsGet gfs "coordinates" = .arr (r0 :: rest)) :
    exteriorResolve (.obj fs) = wrapRing (.obj fs) r0 ∧
    interiorsResolve (.obj fs) = .arr (rest.map (wrapRing (.obj fs))) ∧
    (∀ gfs2 : List (String × JsonV), ∀ fs2 : List (String × JsonV),
      JsonV.fieldsGet fs2 "geojson" = .obj gfs2 →
      polygonRings (.obj gfs2) = none →
      interiorsResolve (.obj fs2) = .arr []) ∧
    (∀ parent : JsonV,
      parent.truthy = false ∨ (parent.objGet "geojson").truthy = false →
      interiorsResolve parent = .null) := by
  have hrings : polygonRings (.obj gfs) = some (r0 :: rest) := by
    simp [polygonRings, JsonV.typeofStr, hty, JsonV.strEq, JsonV.objGet, hco]
  refine ⟨?_, ?_, ?_, ?_⟩
  · simp [exteriorResolve, JsonV.objGet, hg, JsonV.truthy, hrings]
  · cases rest with
    | nil => simp [interiorsResolve, JsonV.objGet, hg, JsonV.truthy, hrings]
    | cons r1 rs => simp [interiorsResolve, JsonV.objGet, hg, JsonV.truthy, hrings]
  · intro gfs2 fs2 hg2 hnone
    simp [interiorsResolve, JsonV.objGet, hg2, JsonV.truthy, hnone]
  · intro parent hp
    unfold interiorsResolve
    rcases hp with hp | hp <;> simp [hp]

/-- Witness for C2 at a two ring Polygon row value. -/
theorem claim_polygon_ring_fields_witness :
    exteriorResolve (.obj [("geojson", JsonV.obj [("type", JsonV.str "Polygon"),
        ("coordinates", JsonV.arr [JsonV.arr [JsonV.num 1], JsonV.arr [JsonV.num 2]])]),
        ("srid", JsonV.num 4326)]) =
      wrapRing (.obj [("geojson", JsonV.obj [("type", JsonV.str "Polygon"),
        ("coordinates", JsonV.arr [JsonV.arr [JsonV.num 1], JsonV.arr [JsonV.num 2]])]),
        ("srid", JsonV.num 4326)]) (JsonV.arr [JsonV.num 1]) ∧
    interiorsResolve (.obj [("geojson", JsonV.obj [("type", JsonV.str "Polygon"),
        ("coordinates", JsonV.arr [JsonV.arr [JsonV.num 1], JsonV.arr [JsonV.num 2]])]),
        ("srid", JsonV.num 4326)]) =
      .arr ([JsonV.arr [JsonV.num 2]].map (wrapRing
        (.obj [("geojson", JsonV.obj [("type", JsonV.str "Polygon"),
          ("coordinates", JsonV.arr [JsonV.arr [JsonV.num 1], JsonV.arr [JsonV.num 2]])]),
          ("srid", JsonV.num 4326)]))) :=
  ⟨(claim_polygon_ring_fields
      [("geojson", JsonV.obj [("type", JsonV.str "Polygon"),
        ("coordinates", JsonV.arr [JsonV.arr [JsonV.num 1], JsonV.arr [JsonV.num 2]])]),
        ("srid", JsonV.num 4326)]
      [("type", JsonV.str "Polygon"),
        ("coordinates", JsonV.arr [JsonV.arr [JsonV.num 1], JsonV.arr [JsonV.num 2]])]
      (JsonV.arr [JsonV.num 1]) [JsonV.arr [JsonV.num 2]] rfl rfl rfl).1,
   (claim_polygon_ring_fields
      [("geojson", JsonV.obj [("type", JsonV.str "Polygon"),
        ("coordinates", JsonV.arr [JsonV.arr [JsonV.num 1], JsonV.arr [JsonV.num 2]])]),
        ("srid", JsonV.num 4326)]
      [("type", JsonV.str "Polygon"),
        ("coordinates", JsonV.arr [JsonV.arr [JsonV.num 1], JsonV.arr [JsonV.num 2]])]
      (JsonV.arr [JsonV.num 1]) [JsonV.arr [JsonV.num 2]] rfl rfl rfl).2.1⟩

/-- C8: for a non-null write through a PostGIS codec whose toPg
succeeds, the generated storage expression is: for geography, the
parsed GeoJSON cast to geography with no reference-id operation; for
geometry with a non-zero constrained srid, the parse wrapped in
ST_SetSRID (no coordinate transform); for geometry with srid 0 or no
constraint, the bare parse expression. -/
theorem claim_sql_srid_handling (v : JsonV) (dts : Option GISTypeDetails) (j : String)
    (hv : v.isNullish = false)
    (htp : toPg dts v = .ok j) :
    sqlValueWithPostGISCodec v (postgisCodec "geography" dts) =
      .ok [.raw "ST_GeomFromGeoJSON(", .value (.str j), .raw "::text)::geography"] ∧
    (∀ td : GISTypeDetails, dts = some td → td.srid ≠ 0 →
      sqlValueWithPostGISCodec v (postgisCodec "geometry" dts) =
        .ok [.raw "ST_SetSRID(ST_GeomFromGeoJSON(", .value (.str j),
             .raw "::text), ", .value (.num td.srid), .raw ")::geometry"]) ∧
    (∀ td : GISTypeDetails, dts = some td → td.srid = 0 →
      sqlValueWithPostGISCodec v (postgisCodec "geometry" dts) =
        .ok [.raw "ST_GeomFromGeoJSON(", .value (.str j), .raw "::text)::geometry"]) ∧
    (dts = none →
      sqlValueWithPostGISCodec v (postgisCodec "geometry" dts) =
        .ok [.raw "ST_GeomFromGeoJSON(", .value (.str j), .raw "::text)::geometry"]) := by
  refine ⟨?_, ?_, ?_, ?_⟩
  · simp [sqlValueWithPostGISCodec, postgisCodec, hv, htp, Except.map]
  · intro td hdts hsr
    subst hdts
    simp [sqlValueWithPostGISCodec, postgisCodec, hv, htp, hsr, Except.map]
  · intro td hdts hsr
    subst hdts
    simp [sqlValueWithPostGISCodec, postgisCodec, hv, htp, hsr, Except.map]
  · intro hdts
    subst hdts
    simp [sqlValueWithPostGISCodec, postgisCodec, hv, htp, Except.map]

/-- Witness for C8 at a valid Point document and an srid 4326 Point
shape. -/
theorem claim_sql_srid_handling_witness :
    ((JsonV.obj [("type", JsonV.str "Point"),
        ("coordinates", JsonV.arr [JsonV.num 100, JsonV.num 0])]).isNullish = false ∧
     toPg (some ⟨1, false, false, 4326⟩)
        (.obj [("type", JsonV.str "Point"),
          ("coordinates", JsonV.arr [JsonV.num 100, JsonV.num 0])]) =
       .ok (jsonStringify (.obj [("type", JsonV.str "Point"),
          ("coordinates", JsonV.arr [JsonV.num 100, JsonV.num 0])]))) ∧
    sqlValueWithPostGISCodec
        (.obj [("type", JsonV.str "Point"),
          ("coordinates", JsonV.arr [JsonV.num 100, JsonV.num 0])])
        (postgisCodec "geometry" (some ⟨1, false, false, 4326⟩)) =
      .ok [.raw "ST_SetSRID(ST_GeomFromGeoJSON(",
           .value (.str (jsonStringify (.obj [("type", JsonV.str "Point"),
             ("coordinates", JsonV.arr [JsonV.num 100, JsonV.num 0])]))),
           .raw "::text), ", .value (.num 4326), .raw ")::geometry"] :=
  ⟨⟨rfl, rfl⟩,
   (claim_sql_srid_handling
      (.obj [("type", JsonV.str "Point"),
        ("coordinates", JsonV.arr [JsonV.num 100, JsonV.num 0])])
      (some ⟨1, false, false, 4326⟩)
      (jsonStringify (.obj [("type", JsonV.str "Point"),
        ("coordinates", JsonV.arr [JsonV.num 100, JsonV.num 0])]))
      rfl rfl).2.1 ⟨1, false, false, 4326⟩ rfl (by decide)⟩
